import Mathlib

/-!
Verification of the inactivity-notification core of the `lms_backend`
repository: the inactivity query and notification batch in
`email_service/notify.py`, the scheduled task wrapper in
`schedule/schedule.py`, the admin scheduler endpoints in
`admin/routes/scheduler.py`, the diagnostics reporter in
`diagnostics/activity.py`, and the daemon entry point in
`daemon/daemon.py`.

Modelling conventions:
- Time is an abstract integer measured in days (every duration in the
  source is a whole number of days: `timedelta(days=...)`).
- A database table is a list of records; SQLAlchemy query chains become
  list filters.  The SQL three-valued comparison `last_active < cutoff`
  evaluates to NULL (treated as false by `filter`) when `last_active`
  is NULL; this is modelled by `sqlLt`.
- `send_email` is an external boundary call that either completes or
  raises; it is modelled by a parameter `emailOk : User -> Bool` saying
  which recipients the dispatch succeeds for.
- File writes performed by the diagnostics reporter are modelled as
  returned report values (name plus content lines).
-/

namespace LMS

/-- Model of the SQLAlchemy `User` row (`user/models/user.py` lines
25-36): its mapped columns are id, name, email, role, hashed_password,
`last_active` (nullable datetime) and the `is_active` flag — and nothing
else: the model declares no `last_notification` column
(`hashed_password` is elided here as no claim touches it).  Only these
columns are persisted by `db.commit()`. -/
structure User where
  id : Nat
  name : String
  email : String
  role : String
  lastActive : Option Int
  isActive : Bool
deriving Repr, DecidableEq

/-- Model of the `Notification` row (`notification/models/notification.py`)
as created by `notify_inactive_students`: target user and sent time
(the message text is a fixed template of the send date, elided). -/
structure NotificationRec where
  user_id : Nat
  sent_at : Int
deriving Repr, DecidableEq

/-- SQL comparison `last_active < cutoff` under three-valued logic:
a NULL `last_active` makes the comparison NULL, which the WHERE clause
treats as not-true, excluding the row. -/
def sqlLt (a : Option Int) (cutoff : Int) : Bool :=
  match a with
  | none => false
  | some t => decide (t < cutoff)

/-- The candidate selection inside `notify_inactive_students`
(`email_service/notify.py` lines 51-66):
`db.query(User).filter(User.last_active < cutoff_date).filter(User.is_active == True).all()`
with `cutoff_date = now - timedelta(days=threshold)`. -/
def inactive_users_query (db : List User) (now threshold : Int) : List User :=
  let cutoff := now - threshold
  db.filter (fun u => sqlLt u.lastActive cutoff && u.isActive)

/-- In-memory state of one `User` instance during the batch: the mapped
row together with the plain Python attribute `last_notification` that
`notify.py` line 108 assigns.  Since `User` maps no such column, the
attribute lives only on the instance; `db.commit()` persists `row`
alone. -/
structure UserObj where
  row : User
  last_notification : Option Int
deriving Repr, DecidableEq

/-- A freshly loaded instance: just the row, no `last_notification`
attribute set on it. -/
def mkUserObj (u : User) : UserObj :=
  { row := u, last_notification := none }

/-- Effect of `user.last_notification = datetime.utcnow()` on the
instance: the unmapped attribute is set; the mapped row is untouched. -/
def setLastNotification (now : Int) (u : User) : UserObj :=
  { row := u, last_notification := some now }

/-- The Notification row added for a successfully notified user. -/
def mkNotification (now : Int) (u : User) : NotificationRec :=
  { user_id := u.id, sent_at := now }

/-- One pass of the per-user loop of `notify_inactive_students`
(lines 76-118): for each candidate, attempt the mail dispatch; on
success add a Notification row, assign the (unmapped)
`last_notification` attribute and count it; on a raised dispatch error
log and continue, leaving the instance untouched.  Returns (success
count, notifications added, final in-memory state of the candidate
instances, in input order). -/
def processInactive (emailOk : User → Bool) (now : Int) :
    List User → Nat × List NotificationRec × List UserObj
  | [] => (0, [], [])
  | u :: rest =>
    let r := processInactive emailOk now rest
    if emailOk u then
      (r.1 + 1, mkNotification now u :: r.2.1, setLastNotification now u :: r.2.2)
    else
      (r.1, r.2.1, mkUserObj u :: r.2.2)

/-- Result of one batch run: the returned count, the Notification rows
added, the final in-memory state of the candidate instances, and whether
`db.commit()` was reached (the source commits only when
`notification_count > 0`).  What the commit persists of each candidate
is its `row` component only. -/
structure BatchOutcome where
  count : Nat
  notifications : List NotificationRec
  users : List UserObj
  committed : Bool
deriving Repr, DecidableEq

/-- Model of `notify_inactive_students` (`email_service/notify.py`):
query the inactive users; if none, return 0 early; otherwise run the
per-user loop and commit once when at least one user was notified. -/
def notify_inactive_students (emailOk : User → Bool) (now threshold : Int)
    (db : List User) : BatchOutcome :=
  let inactive := inactive_users_query db now threshold
  if inactive.isEmpty then
    { count := 0, notifications := [], users := [], committed := false }
  else
    let r := processInactive emailOk now inactive
    { count := r.1, notifications := r.2.1, users := r.2.2, committed := 0 < r.1 }

/-- Characterization: the count returned by the loop is the number of
candidates whose mail dispatch succeeded. -/
theorem processInactive_count (emailOk : User → Bool) (now : Int) (l : List User) :
    (processInactive emailOk now l).1 = l.countP (fun u => emailOk u) := by
  induction l with
  | nil => rfl
  | cons u rest ih =>
    simp only [processInactive, List.countP_cons]
    cases h : emailOk u <;> simp [h, ih]

/-- Characterization: the Notification rows added by the loop are exactly
those of the candidates whose mail dispatch succeeded, in order. -/
theorem processInactive_notifications (emailOk : User → Bool) (now : Int) (l : List User) :
    (processInactive emailOk now l).2.1 = (l.filter (fun u => emailOk u)).map (mkNotification now) := by
  induction l with
  | nil => rfl
  | cons u rest ih =>
    simp only [processInactive, List.filter_cons]
    cases h : emailOk u <;> simp [h, ih]

/-- Characterization: the final in-memory state maps each successfully
notified user to its instance with the attribute set and leaves failed
instances untouched; the mapped row is never modified either way. -/
theorem processInactive_users (emailOk : User → Bool) (now : Int) (l : List User) :
    (processInactive emailOk now l).2.2 =
      l.map (fun u => if emailOk u then setLastNotification now u else mkUserObj u) := by
  induction l with
  | nil => rfl
  | cons u rest ih =>
    simp only [processInactive, List.map_cons]
    cases h : emailOk u <;> simp [h, ih]

/-- Counting lemma: successes plus failures make up the whole list. -/
theorem countP_add_countP_not (f : User → Bool) (l : List User) :
    l.countP (fun u => f u) + l.countP (fun u => !f u) = l.length := by
  induction l with
  | nil => rfl
  | cons u rest ih =>
    simp only [List.countP_cons, List.length_cons]
    cases h : f u <;> simp [h] <;> omega

/-- C1: membership in the inactivity query is exactly: the user is in the
database, has a non-NULL `last_active` strictly below `now - threshold`,
and has `is_active = true`. -/
theorem C1_inactivity_query (T N : Int) (db : List User) (u : User) :
    u ∈ inactive_users_query db N T ↔
      u ∈ db ∧ u.isActive = true ∧ ∃ t, u.lastActive = some t ∧ t < N - T := by
  simp only [inactive_users_query, List.mem_filter, Bool.and_eq_true]
  constructor
  · rintro ⟨hmem, hlt, hact⟩
    refine ⟨hmem, hact, ?_⟩
    cases h : u.lastActive with
    | none => rw [h] at hlt; simp [sqlLt] at hlt
    | some t =>
      rw [h] at hlt
      exact ⟨t, rfl, by simpa [sqlLt] using hlt⟩
  · rintro ⟨hmem, hact, t, hla, hlt⟩
    exact ⟨hmem, by simp [sqlLt, hla, hlt], hact⟩

/-- Characterization of the batch on a non-empty candidate set, combining
the three loop lemmas. -/
theorem notify_inactive_students_spec (emailOk : User → Bool) (now threshold : Int)
    (db : List User) (h : inactive_users_query db now threshold ≠ []) :
    notify_inactive_students emailOk now threshold db =
      { count := (inactive_users_query db now threshold).countP (fun u => emailOk u)
        notifications := ((inactive_users_query db now threshold).filter
            (fun u => emailOk u)).map (mkNotification now)
        users := (inactive_users_query db now threshold).map
            (fun u => if emailOk u then setLastNotification now u else mkUserObj u)
        committed := decide
            (0 < (inactive_users_query db now threshold).countP (fun u => emailOk u)) } := by
  have hb : (inactive_users_query db now threshold).isEmpty = false := by
    simpa [List.isEmpty_iff] using h
  simp only [notify_inactive_students, hb, Bool.false_eq_true, if_false,
    processInactive_count, processInactive_notifications, processInactive_users]

/-- C2: if the mail dispatch fails for exactly one of the N candidates,
the batch creates no Notification row for the failing user (given
distinct user ids), keeps processing the others, and returns N-1. -/
theorem C2_single_failure_isolated (emailOk : User → Bool) (now threshold : Int)
    (db : List User) (u : User)
    (hcand : u ∈ inactive_users_query db now threshold)
    (hfail : emailOk u = false)
    (hone : (inactive_users_query db now threshold).countP (fun v => !emailOk v) = 1)
    (hids : ((inactive_users_query db now threshold).map User.id).Nodup) :
    (notify_inactive_students emailOk now threshold db).count
        = (inactive_users_query db now threshold).length - 1 ∧
      ∀ n ∈ (notify_inactive_students emailOk now threshold db).notifications,
        n.user_id ≠ u.id := by
  have hne : inactive_users_query db now threshold ≠ [] := by
    intro h
    rw [h] at hcand
    simp at hcand
  rw [notify_inactive_students_spec emailOk now threshold db hne]
  constructor
  · have := countP_add_countP_not emailOk (inactive_users_query db now threshold)
    simp only []
    omega
  · intro n hn
    simp only [List.mem_map, List.mem_filter] at hn
    obtain ⟨v, ⟨hv, hvok⟩, rfl⟩ := hn
    simp only [mkNotification]
    intro hid
    have hvu : v ≠ u := by
      intro h
      rw [h, hfail] at hvok
      exact Bool.false_ne_true hvok
    exact hvu (List.inj_on_of_nodup_map hids hv hcand hid)

/-- C2 witness: two candidate users, dispatch fails for user 2 only:
the batch returns 1 and creates no Notification row for user 2. -/
theorem C2_single_failure_isolated_witness :
    (notify_inactive_students (fun v => v.id != 2) 100 14
        [⟨1, "a", "a@x", "student", some 10, true⟩,
         ⟨2, "b", "b@x", "student", some 20, true⟩]).count = 2 - 1 ∧
      ∀ n ∈ (notify_inactive_students (fun v => v.id != 2) 100 14
        [⟨1, "a", "a@x", "student", some 10, true⟩,
         ⟨2, "b", "b@x", "student", some 20, true⟩]).notifications,
        n.user_id ≠ 2 := by
  have h := C2_single_failure_isolated (fun v => v.id != 2) 100 14
    [⟨1, "a", "a@x", "student", some 10, true⟩,
     ⟨2, "b", "b@x", "student", some 20, true⟩]
    ⟨2, "b", "b@x", "student", some 20, true⟩
    (by decide) (by decide) (by decide) (by decide)
  exact ⟨h.1, h.2⟩

/-- C5 (code bug): evaluating the batch at a concrete successfully
notified candidate: the batch reaches the commit and the instance
carries the assigned `last_notification` attribute, but the attribute is
unmapped (the `User` model declares no `last_notification` column), so
the persisted row is the original row, unchanged — the claimed persisted
timestamp update never reaches the database. -/
theorem C5_last_notification_unmapped :
    (notify_inactive_students (fun _ => true) 100 14
        [⟨1, "a", "a@x", "student", some 10, true⟩]).committed = true ∧
      (notify_inactive_students (fun _ => true) 100 14
        [⟨1, "a", "a@x", "student", some 10, true⟩]).users.map UserObj.last_notification
        = [some 100] ∧
      (notify_inactive_students (fun _ => true) 100 14
        [⟨1, "a", "a@x", "student", some 10, true⟩]).users.map UserObj.row
        = [⟨1, "a", "a@x", "student", some 10, true⟩] := by
  refine ⟨rfl, rfl, rfl⟩

/-- Result of one run of the scheduled task `_notify_task_async`
(`schedule/schedule.py` lines 43-63): the count returned to the
scheduler and how many times `diagnose_activity` was invoked. -/
structure TaskResult where
  count : Nat
  diagnosticsRuns : Nat
deriving Repr, DecidableEq

/-- Model of `_notify_task_async`: run the notification batch, then run
`diagnose_activity(db)` exactly once when the `LMS_ENABLE_DIAGNOSTICS`
flag is set or the count is 0, and return the count. -/
def notify_task_async (emailOk : User → Bool) (now threshold : Int)
    (enableDiagnostics : Bool) (db : List User) : TaskResult :=
  let count := (notify_inactive_students emailOk now threshold db).count
  { count := count
    diagnosticsRuns := if enableDiagnostics || count == 0 then 1 else 0 }

/-- C3: when the inactivity query returns zero candidates, the scheduled
batch run returns 0 and triggers exactly one diagnostics run (the
`count == 0` arm of the condition fires regardless of the flag). -/
theorem C3_zero_candidates_diagnostics (emailOk : User → Bool) (now threshold : Int)
    (enableDiagnostics : Bool) (db : List User)
    (hempty : inactive_users_query db now threshold = []) :
    (notify_task_async emailOk now threshold enableDiagnostics db).count = 0 ∧
      (notify_task_async emailOk now threshold enableDiagnostics db).diagnosticsRuns = 1 := by
  have hc : (notify_inactive_students emailOk now threshold db).count = 0 := by
    simp [notify_inactive_students, hempty]
  constructor
  · simp [notify_task_async, hc]
  · simp [notify_task_async, hc]

/-- C3 witness: an empty database yields zero candidates, a 0 return and
one diagnostics run, with the flag off. -/
theorem C3_zero_candidates_diagnostics_witness :
    (notify_task_async (fun _ => true) 100 14 false []).count = 0 ∧
      (notify_task_async (fun _ => true) 100 14 false []).diagnosticsRuns = 1 :=
  C3_zero_candidates_diagnostics (fun _ => true) 100 14 false [] (by decide)

/-- APScheduler scheduler states (`apscheduler/schedulers/base.py`):
STATE_STOPPED, STATE_RUNNING, STATE_PAUSED. -/
inductive SchedState
  | stopped
  | running
  | paused
deriving Repr, DecidableEq

/-- The process-wide `BackgroundScheduler` instance: its lifecycle state
and the ids of the jobs in its in-memory job store. -/
structure Scheduler where
  state : SchedState
  jobs : List String
deriving Repr, DecidableEq

/-- APScheduler `BaseScheduler.running` property: true whenever the state
is not STOPPED; in particular a paused scheduler counts as running. -/
def Scheduler.isRunning (s : Scheduler) : Bool := s.state != SchedState.stopped

/-- APScheduler `shutdown()`: the state becomes stopped and the in-memory
job store drops its jobs. -/
def Scheduler.shutdown (_s : Scheduler) : Scheduler :=
  { state := SchedState.stopped, jobs := [] }

/-- APScheduler `start()` from the stopped state: state becomes running
(jobs in the store are kept). -/
def Scheduler.start (s : Scheduler) : Scheduler := { s with state := SchedState.running }

/-- APScheduler `add_job(..., id, replace_existing=True)`: any stored job
with the same id is replaced, so the id appears exactly once afterwards. -/
def Scheduler.add_job (s : Scheduler) (jobId : String) : Scheduler :=
  { s with jobs := s.jobs.filter (fun j => j ≠ jobId) ++ [jobId] }

/-- The stable job identifier used by both `lifespan` and the restart
branch of `control_scheduler`. -/
def notifyJobId : String := "notify_inactive_students"

/-- Model of the restart branch of `control_scheduler`
(`admin/routes/scheduler.py` lines 81-106): `if scheduler.running:
scheduler.shutdown()`, then `scheduler.start()`, then re-add the job
under the stable id with `replace_existing=True` (using the re-parsed
cron schedule with the usual fallback). -/
def restartScheduler (s : Scheduler) : Scheduler :=
  let s1 := if s.isRunning then s.shutdown else s
  let s2 := s1.start
  s2.add_job notifyJobId

/-- C4: restarting from any starting state leaves the scheduler running
with the notification job registered exactly once under the stable id
"notify_inactive_students". -/
theorem C4_restart_always_running (s : Scheduler) :
    (restartScheduler s).state = SchedState.running ∧
      (restartScheduler s).jobs.count notifyJobId = 1 := by
  have hcount : ∀ l : List String,
      (l.filter (fun j => j ≠ notifyJobId) ++ [notifyJobId]).count notifyJobId = 1 := by
    intro l
    have h0 : (l.filter (fun j => j ≠ notifyJobId)).count notifyJobId = 0 := by
      apply List.count_eq_zero.mpr
      intro hmem
      rcases List.mem_filter.mp hmem with ⟨_, hne⟩
      simp at hne
    rw [List.count_append, h0]
    simp
  cases s with
  | mk st jobs =>
    cases st with
    | stopped => exact ⟨rfl, hcount jobs⟩
    | running => exact ⟨rfl, hcount []⟩
    | paused => exact ⟨rfl, hcount []⟩

/-- Model of `get_scheduler_status` (`admin/routes/scheduler.py` lines
30-53): when `scheduler.running` is false, status "stopped" with an
empty job list; otherwise the status expression
`"running" if scheduler.running else "stopped"` with the job list. -/
def get_scheduler_status (s : Scheduler) : String × List String :=
  if !s.isRunning then ("stopped", [])
  else ((if s.isRunning then "running" else "stopped"), s.jobs)

/-- C8 counterexample: a paused scheduler reports status "running", not
"paused" (APScheduler's `running` flag is true in the paused state), so
the reported status does not distinguish paused from running. -/
theorem C8_status_counterexample :
    (get_scheduler_status { state := SchedState.paused, jobs := [notifyJobId] }).1
        = "running" ∧
      ("running" : String) ≠ "paused" := by
  constructor
  · rfl
  · decide

/-- C8 amended: the status endpoint reports "stopped" exactly when the
scheduler state is stopped and "running" otherwise; it never reports
"paused", so the value is always drawn from just {running, stopped}. -/
theorem C8_status_amended (s : Scheduler) :
    (get_scheduler_status s).1
        = (if s.state = SchedState.stopped then "stopped" else "running") ∧
      ((get_scheduler_status s).1 = "running" ∨ (get_scheduler_status s).1 = "stopped") := by
  cases s with
  | mk st jobs =>
    cases st <;> simp [get_scheduler_status, Scheduler.isRunning]

/-- Model of `trigger_notifications` (`admin/routes/scheduler.py` lines
18-28): run `_notify_task_async()` once and return the JSON object with
its keys and values in order; the count appears only interpolated into
the message string. -/
def trigger_notifications_route (emailOk : User → Bool) (now threshold : Int)
    (enableDiagnostics : Bool) (db : List User) : List (String × String) :=
  let count := (notify_task_async emailOk now threshold enableDiagnostics db).count
  [("status", "success"),
   ("message", "Notification task triggered. Notified " ++ toString count
      ++ " inactive students.")]

/-- C7 counterexample: the manual trigger response carries no "count"
field (its keys are exactly "status" and "message"), contradicting the
claimed three-field {status, message, count} response. -/
theorem C7_no_count_field_counterexample :
    "count" ∉ (trigger_notifications_route (fun _ => true) 100 14 false []).map Prod.fst := by
  decide

/-- C7 amended: the manual trigger invokes the batch task once and
returns a response whose fields are exactly status and message, with the
notified count interpolated into the message text rather than exposed as
a separate count field. -/
theorem C7_response_fields_amended (emailOk : User → Bool) (now threshold : Int)
    (enableDiagnostics : Bool) (db : List User) :
    (trigger_notifications_route emailOk now threshold enableDiagnostics db).map Prod.fst
        = ["status", "message"] ∧
      (trigger_notifications_route emailOk now threshold enableDiagnostics db).lookup "message"
        = some ("Notification task triggered. Notified "
            ++ toString (notify_task_async emailOk now threshold enableDiagnostics db).count
            ++ " inactive students.") := by
  constructor
  · rfl
  · simp [trigger_notifications_route, List.lookup]

/-- Model of the `__main__` block of `daemon/daemon.py` (lines 42-53) as
the trace of top-level calls: `run()` executes once unconditionally,
then either the diagnostics-only branch (when `sys.argv[1]` is
"--diagnose") or `run()` again in the else branch. -/
def daemonMainTrace (argv : List String) : List String :=
  ["run"] ++
    (if decide (1 < argv.length) && (argv.getD 1 "" == "--diagnose")
      then ["diagnose_activity"]
      else ["run"])

/-- C10: without the --diagnose argument the daemon's entry block invokes
run(), and hence the notification batch, twice in one process
invocation. -/
theorem C10_daemon_double_run (argv : List String)
    (h : ¬ (1 < argv.length ∧ argv.getD 1 "" = "--diagnose")) :
    (daemonMainTrace argv).count "run" = 2 := by
  have hb : (decide (1 < argv.length) && (argv.getD 1 "" == "--diagnose")) = false := by
    by_cases hlt : 1 < argv.length
    · have hne : argv.getD 1 "" ≠ "--diagnose" := fun he => h ⟨hlt, he⟩
      have hbeq : (argv.getD 1 "" == "--diagnose") = false := beq_eq_false_iff_ne.mpr hne
      rw [hbeq, Bool.and_false]
    · rw [decide_eq_false hlt, Bool.false_and]
  simp only [daemonMainTrace]
  rw [hb]
  decide

/-- C10 witness: invoked as plain `python daemon.py` (argv holding only
the script name), run() appears twice in the trace. -/
theorem C10_daemon_double_run_witness :
    (daemonMainTrace ["daemon.py"]).count "run" = 2 :=
  C10_daemon_double_run ["daemon.py"] (by decide)

/-- Splitting a character list at every character satisfying p, keeping
empty pieces (the behaviour of Python's str.split(sep) for a one-character
separator). -/
def splitOnP (p : Char → Bool) : List Char → List (List Char)
  | [] => [[]]
  | c :: cs =>
    let r := splitOnP p cs
    if p c then [] :: r
    else
      match r with
      | [] => [[c]]
      | h :: t => (c :: h) :: t

/-- Python's no-argument str.split(): split on runs of whitespace and
drop the empty pieces. -/
def pythonSplitWhitespace (s : String) : List String :=
  ((splitOnP Char.isWhitespace s.data).filter (fun l => !l.isEmpty)).map
    (fun l => String.mk l)

/-- The five cron fields unpacked by
`minute, hour, day, month, day_of_week = cron_schedule.split()`. -/
structure CronFields where
  minute : String
  hour : String
  day : String
  month : String
  day_of_week : String
deriving Repr, DecidableEq

/-- The hard-coded fallback fields of `lifespan`: daily at 08:00. -/
def defaultCronFields : CronFields :=
  { minute := "0", hour := "8", day := "*", month := "*", day_of_week := "*" }

/-- Model of the schedule parsing in `lifespan` (`schedule/schedule.py`
lines 72-101): try to unpack the configured string into five
whitespace-separated fields; the ValueError raised when the count is not
five is caught, a warning is logged, and the default fields are used.
The Bool records whether the fallback (and warning) was taken.  Any
five-field string is passed through to `CronTrigger` unvalidated. -/
def parseCronSchedule (s : String) : CronFields × Bool :=
  match pythonSplitWhitespace s with
  | [mi, h, d, mo, dow] =>
    ({ minute := mi, hour := h, day := d, month := mo, day_of_week := dow }, false)
  | _ => (defaultCronFields, true)

/-- Digits of a numeric cron atom read as a decimal number; none when the
piece is empty or holds a non-digit. -/
def decDigits (l : List Char) : Option Nat :=
  if l.isEmpty then none
  else
    l.foldl
      (fun acc c =>
        match acc with
        | none => none
        | some n => if c.isDigit then some (n * 10 + (c.toNat - 48)) else none)
      (some 0)

/-- Modelled from the spec: one atom of a standard cron field is a star,
a single value within the field's range, or an inclusive range a-b
within it. -/
def cronAtomValid (lo hi : Nat) (a : List Char) : Bool :=
  if a = ['*'] then true
  else
    match splitOnP (fun c => c = '-') a with
    | [x] =>
      match decDigits x with
      | some n => decide (lo ≤ n) && decide (n ≤ hi)
      | none => false
    | [x, y] =>
      match decDigits x, decDigits y with
      | some m, some n => decide (lo ≤ m) && decide (m ≤ n) && decide (n ≤ hi)
      | _, _ => false
    | _ => false

/-- Modelled from the spec: a cron list item is an atom optionally
followed by a /step with a positive step. -/
def cronItemValid (lo hi : Nat) (item : List Char) : Bool :=
  match splitOnP (fun c => c = '/') item with
  | [b] => cronAtomValid lo hi b
  | [b, st] =>
    cronAtomValid lo hi b &&
      (match decDigits st with
       | some n => decide (0 < n)
       | none => false)
  | _ => false

/-- Modelled from the spec: a cron field is a non-empty comma-separated
list of valid items. -/
def cronFieldValid (lo hi : Nat) (f : List Char) : Bool :=
  let items := splitOnP (fun c => c = ',') f
  !items.isEmpty && items.all (cronItemValid lo hi)

/-- Modelled from the spec: a well-formed cron-style schedule is five
whitespace-separated fields, minute 0-59, hour 0-23, day-of-month 1-31,
month 1-12, day-of-week 0-6.  This definition comes from the spec's
words (the source delegates field validation to the external
CronTrigger); it exists to state what "malformed" means in the claim. -/
def cronWellFormed (s : String) : Bool :=
  match (splitOnP Char.isWhitespace s.data).filter (fun l => !l.isEmpty) with
  | [mi, h, d, mo, dow] =>
    cronFieldValid 0 59 mi && cronFieldValid 0 23 h && cronFieldValid 1 31 d &&
      cronFieldValid 1 12 mo && cronFieldValid 0 6 dow
  | _ => false

/-- C6 counterexample: the schedule string "61 8 * * *" is malformed (61
is not a valid minute) yet the startup parse applies no fallback: the
invalid fields are passed straight to the trigger, so startup does not
fall back to the 08:00 default for this malformed string. -/
theorem C6_cron_fallback_counterexample :
    cronWellFormed "61 8 * * *" = false ∧
      (parseCronSchedule "61 8 * * *").2 = false := by
  constructor
  · decide
  · decide

/-- C6 amended: the fallback to the daily-08:00 default (with a warning)
is applied exactly when the configured string does not consist of five
whitespace-separated fields; whenever the fallback is applied the fields
used are minute 0, hour 8 and wildcards. -/
theorem C6_cron_fallback_amended (s : String) :
    (parseCronSchedule s).2 = decide ((pythonSplitWhitespace s).length ≠ 5) ∧
      ((parseCronSchedule s).2 = false ∨ (parseCronSchedule s).1 = defaultCronFields) := by
  rcases hl : pythonSplitWhitespace s with _ | ⟨a, _ | ⟨b, _ | ⟨c, _ | ⟨d, _ | ⟨e, _ | ⟨f, t⟩⟩⟩⟩⟩⟩ <;>
    simp [parseCronSchedule, hl]

/-- Insertion step of the descending sort used to model
`order_by(User.last_active.desc())`. -/
def insertDescBy (key : User → Int) (u : User) : List User → List User
  | [] => [u]
  | v :: vs => if key v ≤ key u then u :: v :: vs else v :: insertDescBy key u vs

/-- Descending sort by a key, modelling the SQL ORDER BY ... DESC. -/
def sortDescBy (key : User → Int) : List User → List User
  | [] => []
  | u :: us => insertDescBy key u (sortDescBy key us)

/-- The `user_counts` object of the diagnosis summary
(`diagnostics/activity.py` lines 131-137). -/
structure UserCounts where
  total_users : Nat
  active_users : Nat
  inactive_users : Nat
  users_missing_last_active : Nat
  potential_inactive_users : Nat
deriving Repr, DecidableEq

/-- One entry of the `recent_activity` sample list. -/
structure ActivitySample where
  user_id : Nat
  days_since_active : Int
  is_active_flag : Bool
deriving Repr, DecidableEq

/-- One entry of the `inactive_samples` list; `has_email` is the
truthiness of the user's email attribute (non-empty string). -/
structure InactiveSample where
  user_id : Nat
  days_inactive : Int
  has_email : Bool
deriving Repr, DecidableEq

/-- The summary dictionary assembled by `diagnose_activity`. -/
structure DiagSummary where
  user_counts : UserCounts
  recent_notifications : Nat
  threshold_days : Int
  recent_activity : List ActivitySample
  inactive_samples : List InactiveSample
deriving Repr, DecidableEq

/-- The two report artifacts written by `_generate_reports`, modelled as
returned values: the JSON file name (its content is the summary), the
text file name and the text file's lines. -/
structure DiagReports where
  jsonName : String
  textName : String
  textLines : List String
deriving Repr, DecidableEq

/-- The guarded percentage of `_generate_reports`:
`(missing_last_active / total_users) * 100 if total_users > 0 else 0`,
over exact rationals in place of Python floats. -/
def missingPercentage (missing total : Nat) : ℚ :=
  if 0 < total then (missing : ℚ) / (total : ℚ) * 100 else 0

/-- The separator written as `'='*50` in the text report. -/
def eqRule : String := String.mk (List.replicate 50 '=')

/-- The section separator written as `'-'*20` in the text report. -/
def dashRule : String := String.mk (List.replicate 20 '-')

/-- Model of `_generate_reports` (`diagnostics/activity.py` lines
178-240): emit the JSON report and the sectioned text report, each named
`activity_report_<timestamp>.{json,txt}` (the strftime timestamp pattern
is abstracted to the timestamp string passed in).  One written line is
one list element; numeric interpolations use toString. -/
def generate_reports (tsStr : String) (summary : DiagSummary)
    (inactive_samples : List InactiveSample) (recent_activity : List ActivitySample)
    (total_users missing_last_active potential_inactive : Nat)
    (threshold : Int) : DiagReports :=
  { jsonName := "activity_report_" ++ tsStr ++ ".json"
    textName := "activity_report_" ++ tsStr ++ ".txt"
    textLines :=
      ["LMS Activity Diagnosis Report",
       "Generated: " ++ tsStr,
       eqRule,
       "USER STATISTICS",
       dashRule,
       "Total users: " ++ toString summary.user_counts.total_users,
       "Active users: " ++ toString summary.user_counts.active_users,
       "Inactive users: " ++ toString summary.user_counts.inactive_users,
       "Users missing last_active: " ++ toString summary.user_counts.users_missing_last_active,
       "Potential inactive users: " ++ toString summary.user_counts.potential_inactive_users,
       "NOTIFICATION SETTINGS",
       dashRule,
       "Inactivity threshold: " ++ toString summary.threshold_days ++ " days",
       "Recent notifications (7 days): " ++ toString summary.recent_notifications]
      ++ (if inactive_samples.isEmpty then
            ["NO INACTIVE USERS FOUND",
             dashRule,
             "No users meet the criteria for inactivity notification."]
          else
            "SAMPLE INACTIVE USERS" :: dashRule ::
              inactive_samples.map (fun u =>
                "User " ++ toString u.user_id ++ ": " ++ toString u.days_inactive
                  ++ " days inactive, has email: " ++ toString u.has_email))
      ++ (if recent_activity.isEmpty then []
          else
            "RECENT USER ACTIVITY" :: dashRule ::
              recent_activity.map (fun u =>
                "User " ++ toString u.user_id ++ ": " ++ toString u.days_since_active
                  ++ " days since last active"))
      ++ ["POSSIBLE ISSUES", dashRule]
      ++ (if total_users = 0 then ["- No users found in the database"] else [])
      ++ (if 0 < missing_last_active then
            ["- " ++ toString missing_last_active ++ " users ("
              ++ toString (missingPercentage missing_last_active total_users)
              ++ "%) are missing last_active timestamps"]
          else [])
      ++ (if potential_inactive = 0 ∧ 0 < total_users then
            ["- No users meet the inactivity threshold of " ++ toString threshold ++ " days"]
          else []) }

/-- Result of `diagnose_activity`: the summary and the report locations. -/
structure DiagResult where
  summary : DiagSummary
  reports : DiagReports
deriving Repr, DecidableEq

/-- Model of `diagnose_activity` (`diagnostics/activity.py` lines
54-173): the aggregate counts, the ten most recently active users, up to
five sample inactive users, the notifications of the last seven days,
and the two generated reports. -/
def diagnose_activity (users : List User) (notifs : List NotificationRec)
    (now : Int) (threshold : Int) : DiagResult :=
  let cutoff := now - threshold
  let total_users := users.length
  let active_users := users.countP (fun u => u.isActive)
  let inactive_count := users.countP (fun u => !u.isActive)
  let missing_last_active := users.countP (fun u => u.lastActive.isNone)
  let potential_inactive :=
    users.countP (fun u => sqlLt u.lastActive cutoff && u.isActive)
  let recent_users :=
    (sortDescBy (fun u => u.lastActive.getD 0)
      (users.filter (fun u => u.lastActive.isSome))).take 10
  let recent_activity := recent_users.map (fun u =>
    { user_id := u.id
      days_since_active := now - u.lastActive.getD 0
      is_active_flag := u.isActive : ActivitySample })
  let sample_inactive :=
    (users.filter (fun u => sqlLt u.lastActive cutoff && u.isActive)).take 5
  let inactive_samples := sample_inactive.map (fun u =>
    { user_id := u.id
      days_inactive := now - u.lastActive.getD 0
      has_email := u.email ≠ "" : InactiveSample })
  let recent_notifications := notifs.countP (fun n => decide (now - 7 ≤ n.sent_at))
  let summary : DiagSummary :=
    { user_counts :=
        { total_users := total_users
          active_users := active_users
          inactive_users := inactive_count
          users_missing_last_active := missing_last_active
          potential_inactive_users := potential_inactive }
      recent_notifications := recent_notifications
      threshold_days := threshold
      recent_activity := recent_activity
      inactive_samples := inactive_samples }
  { summary := summary
    reports := generate_reports (toString now) summary inactive_samples recent_activity
      total_users missing_last_active potential_inactive threshold }

/-- C9: on an empty user table the diagnostics computation completes with
all counts 0, the guarded percentage evaluating to 0 with no division by
zero, and both report artifacts still produced (with the empty-table
issue line present in the text report). -/
theorem C9_diagnostics_empty_db (now threshold : Int) :
    (diagnose_activity [] [] now threshold).summary.user_counts
        = { total_users := 0, active_users := 0, inactive_users := 0,
            users_missing_last_active := 0, potential_inactive_users := 0 } ∧
      (diagnose_activity [] [] now threshold).summary.recent_notifications = 0 ∧
      missingPercentage 0 0 = 0 ∧
      (diagnose_activity [] [] now threshold).reports.jsonName
        = "activity_report_" ++ toString now ++ ".json" ∧
      (diagnose_activity [] [] now threshold).reports.textName
        = "activity_report_" ++ toString now ++ ".txt" ∧
      "- No users found in the database"
        ∈ (diagnose_activity [] [] now threshold).reports.textLines := by
  refine ⟨rfl, rfl, by simp [missingPercentage], rfl, rfl, ?_⟩
  simp [diagnose_activity, generate_reports, sortDescBy]

end LMS
